import Mathlib

/-!
Verification of the Mergington High School activities service (src/app.py).

The service is CRUD logic over two tables, `Activity` and `Enrollment`,
with four HTTP handlers: list activities, sign up, unregister, and a root
redirect.  We embed the database state as lists of rows plus the
auto-increment counters of the primary keys, and each handler as a pure
function from the state to a response paired with the successor state.
A handler that raises `HTTPException` does so before any mutation, so its
error branches return the state unchanged; a `session.delete` issues a
SQL `DELETE` keyed on the primary key, which we render as a filter on the
row id.
-/

namespace App

/-- Row of the `activity` table (`class Activity` in app.py). -/
structure Activity where
  id : Nat
  name : String
  description : String
  schedule : String
  max_participants : Nat
deriving Repr, DecidableEq

/-- Row of the `enrollment` table (`class Enrollment` in app.py). -/
structure Enrollment where
  id : Nat
  activity_id : Nat
  email : String
deriving Repr, DecidableEq

/-- The persistent database state: the two tables in row order, plus the
auto-increment counters SQLite uses to assign fresh primary keys. -/
structure DB where
  activities : List Activity
  enrollments : List Enrollment
  nextActivityId : Nat
  nextEnrollmentId : Nat
deriving Repr, DecidableEq

/-- The empty store (fresh database file; SQLite ids start at 1). -/
def emptyDB : DB := ⟨[], [], 1, 1⟩

/-- Outcome of a handler: a 200 JSON `{message: ...}` body, or an
`HTTPException` with its status code and detail string. -/
inductive ApiResponse where
  | ok (message : String)
  | error (status_code : Nat) (detail : String)
deriving Repr, DecidableEq

/-- `session.exec(select(Activity).where(Activity.name == activity_name)).first()` -/
def findActivity (db : DB) (activity_name : String) : Option Activity :=
  db.activities.find? (fun a => a.name == activity_name)

/-- `session.exec(select(Enrollment).where(Enrollment.activity_id == aid,
Enrollment.email == email)).first()` -/
def findEnrollment (db : DB) (aid : Nat) (email : String) : Option Enrollment :=
  db.enrollments.find? (fun e => e.activity_id == aid && e.email == email)

/-- `POST /activities/{activity_name}/signup` (`signup_for_activity` in app.py). -/
def signup_for_activity (activity_name email : String) (db : DB) : ApiResponse × DB :=
  match findActivity db activity_name with
  | none => (.error 404 "Activity not found", db)
  | some activity =>
    match findEnrollment db activity.id email with
    | some _ => (.error 400 "Student is already signed up", db)
    | none =>
      let enrollment : Enrollment := ⟨db.nextEnrollmentId, activity.id, email⟩
      (.ok s!"Signed up {email} for {activity_name}",
        { db with
            enrollments := db.enrollments ++ [enrollment],
            nextEnrollmentId := db.nextEnrollmentId + 1 })

/-- `DELETE /activities/{activity_name}/unregister` (`unregister_from_activity`
in app.py).  `session.delete(enrollment)` issues `DELETE ... WHERE id = pk`. -/
def unregister_from_activity (activity_name email : String) (db : DB) : ApiResponse × DB :=
  match findActivity db activity_name with
  | none => (.error 404 "Activity not found", db)
  | some activity =>
    match findEnrollment db activity.id email with
    | none => (.error 400 "Student is not signed up for this activity", db)
    | some enrollment =>
      (.ok s!"Unregistered {email} from {activity_name}",
        { db with
            enrollments := db.enrollments.filter (fun e => e.id != enrollment.id) })

/-- The participant emails selected for one activity id, in row order
(`select(Enrollment.email).where(Enrollment.activity_id == act.id)`). -/
def participantEmails (db : DB) (aid : Nat) : List String :=
  (db.enrollments.filter (fun e => e.activity_id == aid)).map Enrollment.email

/-- Value of one entry of the JSON object returned by `GET /activities`. -/
structure ActivityOut where
  description : String
  schedule : String
  max_participants : Nat
  participants : List String
deriving Repr, DecidableEq

/-- `GET /activities` (`get_activities` in app.py): a mapping from activity
name to its public view, in table row order (Python dicts keep insertion
order).  The handler only reads, so it takes no successor state. -/
def get_activities (db : DB) : List (String × ActivityOut) :=
  db.activities.map (fun act =>
    (act.name,
      { description := act.description
        schedule := act.schedule
        max_participants := act.max_participants
        participants := participantEmails db act.id }))

/-- One entry of the hard-coded `seed_data` dictionary. -/
structure SeedEntry where
  name : String
  description : String
  schedule : String
  max_participants : Nat
  participants : List String
deriving Repr, DecidableEq

/-- The `seed_data` catalog of app.py, in dictionary (insertion) order. -/
def seed_data : List SeedEntry :=
  [ { name := "Chess Club"
      description := "Learn strategies and compete in chess tournaments"
      schedule := "Fridays, 3:30 PM - 5:00 PM"
      max_participants := 12
      participants := ["michael@mergington.edu", "daniel@mergington.edu"] },
    { name := "Programming Class"
      description := "Learn programming fundamentals and build software projects"
      schedule := "Tuesdays and Thursdays, 3:30 PM - 4:30 PM"
      max_participants := 20
      participants := ["emma@mergington.edu", "sophia@mergington.edu"] },
    { name := "Gym Class"
      description := "Physical education and sports activities"
      schedule := "Mondays, Wednesdays, Fridays, 2:00 PM - 3:00 PM"
      max_participants := 30
      participants := ["john@mergington.edu", "olivia@mergington.edu"] },
    { name := "Soccer Team"
      description := "Join the school soccer team and compete in matches"
      schedule := "Tuesdays and Thursdays, 4:00 PM - 5:30 PM"
      max_participants := 22
      participants := ["liam@mergington.edu", "noah@mergington.edu"] },
    { name := "Basketball Team"
      description := "Practice and play basketball with the school team"
      schedule := "Wednesdays and Fridays, 3:30 PM - 5:00 PM"
      max_participants := 15
      participants := ["ava@mergington.edu", "mia@mergington.edu"] },
    { name := "Art Club"
      description := "Explore your creativity through painting and drawing"
      schedule := "Thursdays, 3:30 PM - 5:00 PM"
      max_participants := 15
      participants := ["amelia@mergington.edu", "harper@mergington.edu"] },
    { name := "Drama Club"
      description := "Act, direct, and produce plays and performances"
      schedule := "Mondays and Wednesdays, 4:00 PM - 5:30 PM"
      max_participants := 20
      participants := ["ella@mergington.edu", "scarlett@mergington.edu"] },
    { name := "Math Club"
      description := "Solve challenging problems and participate in math competitions"
      schedule := "Tuesdays, 3:30 PM - 4:30 PM"
      max_participants := 10
      participants := ["james@mergington.edu", "benjamin@mergington.edu"] },
    { name := "Debate Team"
      description := "Develop public speaking and argumentation skills"
      schedule := "Fridays, 4:00 PM - 5:30 PM"
      max_participants := 12
      participants := ["charlotte@mergington.edu", "henry@mergington.edu"] } ]

/-- Insert one catalog entry: the `Activity` row (its id assigned at
`session.flush()`), then one `Enrollment` row per initial participant. -/
def seedOne (db : DB) (entry : SeedEntry) : DB :=
  let aid := db.nextActivityId
  let db1 : DB :=
    { db with
        activities := db.activities ++
          [⟨aid, entry.name, entry.description, entry.schedule, entry.max_participants⟩],
        nextActivityId := aid + 1 }
  entry.participants.foldl
    (fun acc email =>
      { acc with
          enrollments := acc.enrollments ++ [⟨acc.nextEnrollmentId, aid, email⟩],
          nextEnrollmentId := acc.nextEnrollmentId + 1 })
    db1

/-- `init_db_and_seed` of app.py: if `select(Activity).first()` returns a
row, return without writing; otherwise insert the whole catalog. -/
def init_db_and_seed (db : DB) : DB :=
  if db.activities.isEmpty then seed_data.foldl seedOne db else db

/-- One incoming API request (the root redirect touches no data). -/
inductive Request where
  | list
  | signup (activity_name email : String)
  | unregister (activity_name email : String)
deriving Repr, DecidableEq

/-- The database state after serving one request.  `GET /activities` only
reads; the two mutating handlers return their successor state. -/
def applyRequest (db : DB) (r : Request) : DB :=
  match r with
  | .list => db
  | .signup n e => (signup_for_activity n e db).2
  | .unregister n e => (unregister_from_activity n e db).2

/-! ### Helper lemmas -/

/-- `find?` returns the unique element satisfying the predicate. -/
theorem find?_eq_some_unique {α : Type} (p : α → Bool) :
    ∀ (l : List α) (a : α), a ∈ l → p a = true → (∀ b ∈ l, p b = true → b = a) →
      l.find? p = some a
  | [], a, ha, _, _ => absurd ha (List.not_mem_nil a)
  | x :: xs, a, ha, hpa, huniq => by
    by_cases hx : p x = true
    · rw [List.find?_cons_of_pos _ hx, huniq x (List.mem_cons_self x xs) hx]
    · rw [List.find?_cons_of_neg _ hx]
      rcases List.mem_cons.1 ha with rfl | h
      · exact absurd hpa hx
      · exact find?_eq_some_unique p xs a h hpa
          (fun b hb hpb => huniq b (List.mem_cons_of_mem x hb) hpb)

/-- When the primary keys of the table are distinct (the store guarantees
this), a SQL delete keyed on `e.id` removes exactly the row `e`. -/
theorem filter_ne_id_eq_erase :
    ∀ (l : List Enrollment) (e : Enrollment), e ∈ l → (l.map Enrollment.id).Nodup →
      l.filter (fun x => x.id != e.id) = l.erase e
  | [], e, he, _ => absurd he (List.not_mem_nil e)
  | x :: xs, e, he, hnd => by
    rw [List.map_cons, List.nodup_cons] at hnd
    by_cases hxe : x = e
    · subst hxe
      rw [List.erase_cons_head, List.filter_cons_of_neg (by simp)]
      refine List.filter_eq_self.2 fun a ha => ?_
      have hne : a.id ≠ x.id := fun h => hnd.1 (h ▸ List.mem_map_of_mem Enrollment.id ha)
      simpa using hne
    · have hexs : e ∈ xs := by
        rcases List.mem_cons.1 he with rfl | h
        · exact absurd rfl hxe
        · exact h
      have hid : x.id ≠ e.id := fun h =>
        hnd.1 (h ▸ List.mem_map_of_mem Enrollment.id hexs)
      rw [List.erase_cons_tail (by simpa using hxe),
        List.filter_cons_of_pos (by simpa using hid),
        filter_ne_id_eq_erase xs e hexs hnd.2]

/-- Sign-up never touches the `activity` table. -/
theorem signup_preserves_activities (n e : String) (db : DB) :
    (signup_for_activity n e db).2.activities = db.activities := by
  rcases hfa : findActivity db n with _ | a
  · simp [signup_for_activity, hfa]
  · rcases hfe : findEnrollment db a.id e with _ | en
    · simp [signup_for_activity, hfa, hfe]
    · simp [signup_for_activity, hfa, hfe]

/-- Unregister never touches the `activity` table. -/
theorem unregister_preserves_activities (n e : String) (db : DB) :
    (unregister_from_activity n e db).2.activities = db.activities := by
  rcases hfa : findActivity db n with _ | a
  · simp [unregister_from_activity, hfa]
  · rcases hfe : findEnrollment db a.id e with _ | en
    · simp [unregister_from_activity, hfa, hfe]
    · simp [unregister_from_activity, hfa, hfe]

/-- A concrete state for witnesses: the Chess Club (id 1) is at its
capacity of 2, the Art Club (id 2) has nobody enrolled. -/
def dbChess : DB :=
  { activities :=
      [⟨1, "Chess Club", "Learn strategies", "Fridays, 3:30 PM - 5:00 PM", 2⟩,
       ⟨2, "Art Club", "Painting and drawing", "Thursdays, 3:30 PM - 5:00 PM", 2⟩],
    enrollments := [⟨1, 1, "michael@mergington.edu"⟩, ⟨2, 1, "daniel@mergington.edu"⟩],
    nextActivityId := 3,
    nextEnrollmentId := 3 }

/-! ### The claims -/

/-- C1: For every database state and request, sign-up with
(activity_name, email) returns 404 "Activity not found" when no activity
row bears that name; returns 400 "Student is already signed up" when an
enrollment row for (that activity's id, email) exists; and otherwise
appends exactly one new enrollment row for (activity_id, email) and
answers 200 with a message naming the email and the activity. -/
theorem signup_spec (db : DB) (activity_name email : String) :
    ((∀ a ∈ db.activities, a.name ≠ activity_name) →
      signup_for_activity activity_name email db = (.error 404 "Activity not found", db)) ∧
    (∀ a : Activity, a ∈ db.activities → a.name = activity_name →
      (∀ b ∈ db.activities, b.name = activity_name → b = a) →
      ((∃ e ∈ db.enrollments, e.activity_id = a.id ∧ e.email = email) →
        signup_for_activity activity_name email db =
          (.error 400 "Student is already signed up", db)) ∧
      ((∀ e ∈ db.enrollments, ¬(e.activity_id = a.id ∧ e.email = email)) →
        signup_for_activity activity_name email db =
          (.ok s!"Signed up {email} for {activity_name}",
            { db with
                enrollments := db.enrollments ++ [⟨db.nextEnrollmentId, a.id, email⟩],
                nextEnrollmentId := db.nextEnrollmentId + 1 }))) := by
  constructor
  · intro h
    have hfind : findActivity db activity_name = none := by
      rw [findActivity, List.find?_eq_none]
      intro x hx
      simpa using h x hx
    simp [signup_for_activity, hfind]
  · intro a ha hname huniq
    have hfind : findActivity db activity_name = some a :=
      find?_eq_some_unique _ db.activities a ha (by simpa using hname)
        (fun b hb hpb => huniq b hb (by simpa using hpb))
    constructor
    · rintro ⟨e, he, hid, hem⟩
      have hsome : (findEnrollment db a.id email).isSome := by
        rw [findEnrollment, List.find?_isSome]
        exact ⟨e, he, by simp [hid, hem]⟩
      rcases Option.isSome_iff_exists.1 hsome with ⟨e', he'⟩
      simp [signup_for_activity, hfind, he']
    · intro hnone
      have hfe : findEnrollment db a.id email = none := by
        rw [findEnrollment, List.find?_eq_none]
        intro x hx
        simpa using hnone x hx
      simp [signup_for_activity, hfind, hfe]

/-- Witness for C1: the three branches at concrete states. -/
theorem signup_spec_witness :
    signup_for_activity "Robotics" "x@mergington.edu" dbChess =
      (.error 404 "Activity not found", dbChess) ∧
    signup_for_activity "Chess Club" "michael@mergington.edu" dbChess =
      (.error 400 "Student is already signed up", dbChess) ∧
    signup_for_activity "Art Club" "michael@mergington.edu" dbChess =
      (.ok "Signed up michael@mergington.edu for Art Club",
        { dbChess with
            enrollments := dbChess.enrollments ++ [⟨3, 2, "michael@mergington.edu"⟩],
            nextEnrollmentId := 4 }) :=
  ⟨(signup_spec dbChess "Robotics" "x@mergington.edu").1 (by decide),
   ((signup_spec dbChess "Chess Club" "michael@mergington.edu").2
      ⟨1, "Chess Club", "Learn strategies", "Fridays, 3:30 PM - 5:00 PM", 2⟩
      (by decide) rfl (by decide)).1 (by decide),
   ((signup_spec dbChess "Art Club" "michael@mergington.edu").2
      ⟨2, "Art Club", "Painting and drawing", "Thursdays, 3:30 PM - 5:00 PM", 2⟩
      (by decide) rfl (by decide)).2 (by decide)⟩

/-- C2: sign-up performs no capacity check: when the activity exists and
the email is not yet enrolled in it, the insert succeeds even though the
activity's current enrollment count already reaches `max_participants`. -/
theorem signup_ignores_capacity (db : DB) (activity_name email : String) (a : Activity)
    (hfind : findActivity db activity_name = some a)
    (hnot : ∀ e ∈ db.enrollments, ¬(e.activity_id = a.id ∧ e.email = email))
    (_hfull : a.max_participants ≤ (participantEmails db a.id).length) :
    (signup_for_activity activity_name email db).1 =
      .ok s!"Signed up {email} for {activity_name}" ∧
    (signup_for_activity activity_name email db).2.enrollments =
      db.enrollments ++ [⟨db.nextEnrollmentId, a.id, email⟩] := by
  have hfe : findEnrollment db a.id email = none := by
    rw [findEnrollment, List.find?_eq_none]
    intro x hx
    simpa using hnot x hx
  constructor
  · simp [signup_for_activity, hfind, hfe]
  · simp [signup_for_activity, hfind, hfe]

/-- Witness for C2: Chess Club is full (2 of 2) and sign-up still succeeds. -/
theorem signup_ignores_capacity_witness :
    (signup_for_activity "Chess Club" "emma@mergington.edu" dbChess).1 =
      .ok "Signed up emma@mergington.edu for Chess Club" ∧
    (signup_for_activity "Chess Club" "emma@mergington.edu" dbChess).2.enrollments =
      dbChess.enrollments ++ [⟨3, 1, "emma@mergington.edu"⟩] :=
  signup_ignores_capacity dbChess "Chess Club" "emma@mergington.edu"
    ⟨1, "Chess Club", "Learn strategies", "Fridays, 3:30 PM - 5:00 PM", 2⟩
    (by decide) (by decide) (by decide)

/-- C3: For every database state, unregister with (activity_name, email)
returns 404 "Activity not found" when no activity row bears that name;
returns 400 "Student is not signed up for this activity" and changes no
row when no enrollment matches (activity_id, email); and otherwise
deletes exactly that one enrollment row and answers 200 with a
confirmation message.  Primary keys are distinct in the store, which the
success branch records as a `Nodup` hypothesis. -/
theorem unregister_spec (db : DB) (activity_name email : String) :
    ((∀ a ∈ db.activities, a.name ≠ activity_name) →
      unregister_from_activity activity_name email db =
        (.error 404 "Activity not found", db)) ∧
    (∀ a : Activity, a ∈ db.activities → a.name = activity_name →
      (∀ b ∈ db.activities, b.name = activity_name → b = a) →
      ((∀ e ∈ db.enrollments, ¬(e.activity_id = a.id ∧ e.email = email)) →
        unregister_from_activity activity_name email db =
          (.error 400 "Student is not signed up for this activity", db)) ∧
      ((db.enrollments.map Enrollment.id).Nodup →
        (∃ e ∈ db.enrollments, e.activity_id = a.id ∧ e.email = email) →
        ∃ e ∈ db.enrollments, e.activity_id = a.id ∧ e.email = email ∧
          unregister_from_activity activity_name email db =
            (.ok s!"Unregistered {email} from {activity_name}",
              { db with enrollments := db.enrollments.erase e }))) := by
  constructor
  · intro h
    have hfind : findActivity db activity_name = none := by
      rw [findActivity, List.find?_eq_none]
      intro x hx
      simpa using h x hx
    simp [unregister_from_activity, hfind]
  · intro a ha hname huniq
    have hfind : findActivity db activity_name = some a :=
      find?_eq_some_unique _ db.activities a ha (by simpa using hname)
        (fun b hb hpb => huniq b hb (by simpa using hpb))
    constructor
    · intro hnone
      have hfe : findEnrollment db a.id email = none := by
        rw [findEnrollment, List.find?_eq_none]
        intro x hx
        simpa using hnone x hx
      simp [unregister_from_activity, hfind, hfe]
    · intro hnd hex
      have hsome : (findEnrollment db a.id email).isSome := by
        rw [findEnrollment, List.find?_isSome]
        rcases hex with ⟨e, he, hid, hem⟩
        exact ⟨e, he, by simp [hid, hem]⟩
      rcases Option.isSome_iff_exists.1 hsome with ⟨e', he'⟩
      have he2 : db.enrollments.find?
          (fun e => e.activity_id == a.id && e.email == email) = some e' := he'
      have hmem : e' ∈ db.enrollments := List.mem_of_find?_eq_some he2
      have hmatch : e'.activity_id = a.id ∧ e'.email = email := by
        simpa using List.find?_some he2
      refine ⟨e', hmem, hmatch.1, hmatch.2, ?_⟩
      have herase : db.enrollments.filter (fun x => x.id != e'.id) =
          db.enrollments.erase e' :=
        filter_ne_id_eq_erase db.enrollments e' hmem hnd
      simp [unregister_from_activity, hfind, he', herase]

/-- Witness for C3: the three branches at concrete states. -/
theorem unregister_spec_witness :
    unregister_from_activity "Robotics" "x@mergington.edu" dbChess =
      (.error 404 "Activity not found", dbChess) ∧
    unregister_from_activity "Art Club" "michael@mergington.edu" dbChess =
      (.error 400 "Student is not signed up for this activity", dbChess) ∧
    ∃ e ∈ dbChess.enrollments, e.activity_id = 1 ∧ e.email = "michael@mergington.edu" ∧
      unregister_from_activity "Chess Club" "michael@mergington.edu" dbChess =
        (.ok "Unregistered michael@mergington.edu from Chess Club",
          { dbChess with enrollments := dbChess.enrollments.erase e }) :=
  ⟨(unregister_spec dbChess "Robotics" "x@mergington.edu").1 (by decide),
   ((unregister_spec dbChess "Art Club" "michael@mergington.edu").2
      ⟨2, "Art Club", "Painting and drawing", "Thursdays, 3:30 PM - 5:00 PM", 2⟩
      (by decide) rfl (by decide)).1 (by decide),
   ((unregister_spec dbChess "Chess Club" "michael@mergington.edu").2
      ⟨1, "Chess Club", "Learn strategies", "Fridays, 3:30 PM - 5:00 PM", 2⟩
      (by decide) rfl (by decide)).2 (by decide) (by decide)⟩

/-- C4: the seeding routine is idempotent: on a state whose activity table
is non-empty it performs no writes, and running it twice from the empty
store equals running it once. -/
theorem seed_idempotent (db : DB) :
    (db.activities ≠ [] → init_db_and_seed db = db) ∧
    init_db_and_seed (init_db_and_seed emptyDB) = init_db_and_seed emptyDB := by
  constructor
  · intro h
    rw [init_db_and_seed, if_neg (by simpa using h)]
  · rfl

/-- Witness for C4: a non-empty state is untouched by seeding. -/
theorem seed_idempotent_witness :
    dbChess.activities ≠ [] ∧ init_db_and_seed dbChess = dbChess :=
  ⟨by decide, (seed_idempotent dbChess).1 (by decide)⟩

/-- C5: seeding the empty store creates exactly the 9 documented
activities, and `GET /activities` then returns exactly the documented
catalog — name mapped to description, schedule, max_participants and the
initial participant emails. -/
theorem seeded_catalog :
    (init_db_and_seed emptyDB).activities.length = 9 ∧
    get_activities (init_db_and_seed emptyDB) =
      [ ("Chess Club",
          ⟨"Learn strategies and compete in chess tournaments",
           "Fridays, 3:30 PM - 5:00 PM", 12,
           ["michael@mergington.edu", "daniel@mergington.edu"]⟩),
        ("Programming Class",
          ⟨"Learn programming fundamentals and build software projects",
           "Tuesdays and Thursdays, 3:30 PM - 4:30 PM", 20,
           ["emma@mergington.edu", "sophia@mergington.edu"]⟩),
        ("Gym Class",
          ⟨"Physical education and sports activities",
           "Mondays, Wednesdays, Fridays, 2:00 PM - 3:00 PM", 30,
           ["john@mergington.edu", "olivia@mergington.edu"]⟩),
        ("Soccer Team",
          ⟨"Join the school soccer team and compete in matches",
           "Tuesdays and Thursdays, 4:00 PM - 5:30 PM", 22,
           ["liam@mergington.edu", "noah@mergington.edu"]⟩),
        ("Basketball Team",
          ⟨"Practice and play basketball with the school team",
           "Wednesdays and Fridays, 3:30 PM - 5:00 PM", 15,
           ["ava@mergington.edu", "mia@mergington.edu"]⟩),
        ("Art Club",
          ⟨"Explore your creativity through painting and drawing",
           "Thursdays, 3:30 PM - 5:00 PM", 15,
           ["amelia@mergington.edu", "harper@mergington.edu"]⟩),
        ("Drama Club",
          ⟨"Act, direct, and produce plays and performances",
           "Mondays and Wednesdays, 4:00 PM - 5:30 PM", 20,
           ["ella@mergington.edu", "scarlett@mergington.edu"]⟩),
        ("Math Club",
          ⟨"Solve challenging problems and participate in math competitions",
           "Tuesdays, 3:30 PM - 4:30 PM", 10,
           ["james@mergington.edu", "benjamin@mergington.edu"]⟩),
        ("Debate Team",
          ⟨"Develop public speaking and argumentation skills",
           "Fridays, 4:00 PM - 5:30 PM", 12,
           ["charlotte@mergington.edu", "henry@mergington.edu"]⟩) ] :=
  ⟨rfl, rfl⟩

/-- C6: round-trip: when the activity exists and the email is not yet
enrolled in it, signing up and then immediately unregistering the same
(activity_name, email) restores the whole enrollment table, hence every
participant list, to its pre-sign-up state.  The auto-increment counter
dominates every stored id, which the store guarantees. -/
theorem signup_unregister_roundtrip (db : DB) (activity_name email : String) (a : Activity)
    (hfind : findActivity db activity_name = some a)
    (hnot : ∀ e ∈ db.enrollments, ¬(e.activity_id = a.id ∧ e.email = email))
    (hfresh : ∀ e ∈ db.enrollments, e.id < db.nextEnrollmentId) :
    (unregister_from_activity activity_name email
        (signup_for_activity activity_name email db).2).2.enrollments = db.enrollments ∧
    ∀ aid : Nat,
      participantEmails
        (unregister_from_activity activity_name email
          (signup_for_activity activity_name email db).2).2 aid =
        participantEmails db aid := by
  have hfe : findEnrollment db a.id email = none := by
    rw [findEnrollment, List.find?_eq_none]
    intro x hx
    simpa using hnot x hx
  have hstep : (signup_for_activity activity_name email db).2 =
      { db with
          enrollments := db.enrollments ++ [⟨db.nextEnrollmentId, a.id, email⟩],
          nextEnrollmentId := db.nextEnrollmentId + 1 } := by
    simp [signup_for_activity, hfind, hfe]
  have hfind2 : findActivity
      { db with
          enrollments := db.enrollments ++ [⟨db.nextEnrollmentId, a.id, email⟩],
          nextEnrollmentId := db.nextEnrollmentId + 1 } activity_name = some a := hfind
  have hfe0 : db.enrollments.find?
      (fun e => e.activity_id == a.id && e.email == email) = none := hfe
  have hfe2 : findEnrollment
      { db with
          enrollments := db.enrollments ++ [⟨db.nextEnrollmentId, a.id, email⟩],
          nextEnrollmentId := db.nextEnrollmentId + 1 } a.id email =
      some ⟨db.nextEnrollmentId, a.id, email⟩ := by
    simp [findEnrollment, List.find?_append, hfe0]
  have hfilter : (db.enrollments ++ [(⟨db.nextEnrollmentId, a.id, email⟩ : Enrollment)]).filter
      (fun x => x.id != db.nextEnrollmentId) = db.enrollments := by
    rw [List.filter_append]
    have h1 : db.enrollments.filter (fun x => x.id != db.nextEnrollmentId) =
        db.enrollments :=
      List.filter_eq_self.2 fun e he => by simp [Nat.ne_of_lt (hfresh e he)]
    simp [h1]
  have hmain : (unregister_from_activity activity_name email
      (signup_for_activity activity_name email db).2).2.enrollments = db.enrollments := by
    rw [hstep]
    simp [unregister_from_activity, hfind2, hfe2, hfilter]
  exact ⟨hmain, fun aid => by simp [participantEmails, hmain]⟩

/-- Witness for C6: sign up then unregister emma for the Art Club. -/
theorem signup_unregister_roundtrip_witness :
    (unregister_from_activity "Art Club" "emma@mergington.edu"
        (signup_for_activity "Art Club" "emma@mergington.edu" dbChess).2).2.enrollments =
      dbChess.enrollments ∧
    participantEmails
        (unregister_from_activity "Art Club" "emma@mergington.edu"
          (signup_for_activity "Art Club" "emma@mergington.edu" dbChess).2).2 2 =
      participantEmails dbChess 2 :=
  ⟨(signup_unregister_roundtrip dbChess "Art Club" "emma@mergington.edu"
      ⟨2, "Art Club", "Painting and drawing", "Thursdays, 3:30 PM - 5:00 PM", 2⟩
      (by decide) (by decide) (by decide)).1,
   (signup_unregister_roundtrip dbChess "Art Club" "emma@mergington.edu"
      ⟨2, "Art Club", "Painting and drawing", "Thursdays, 3:30 PM - 5:00 PM", 2⟩
      (by decide) (by decide) (by decide)).2 2⟩

/-- C7: failure atomicity: whenever sign-up or unregister answers an
error response, the database state is returned unchanged. -/
theorem error_leaves_state_unchanged (db : DB) (activity_name email : String) :
    (∀ code detail, (signup_for_activity activity_name email db).1 = .error code detail →
      (signup_for_activity activity_name email db).2 = db) ∧
    (∀ code detail, (unregister_from_activity activity_name email db).1 = .error code detail →
      (unregister_from_activity activity_name email db).2 = db) := by
  constructor
  · intro code detail h
    rcases hfa : findActivity db activity_name with _ | a
    · simp [signup_for_activity, hfa]
    · rcases hfe : findEnrollment db a.id email with _ | e
      · simp [signup_for_activity, hfa, hfe] at h
      · simp [signup_for_activity, hfa, hfe]
  · intro code detail h
    rcases hfa : findActivity db activity_name with _ | a
    · simp [unregister_from_activity, hfa]
    · rcases hfe : findEnrollment db a.id email with _ | e
      · simp [unregister_from_activity, hfa, hfe]
      · simp [unregister_from_activity, hfa, hfe] at h

/-- Witness for C7: the 404 and 400 branches at a concrete state. -/
theorem error_leaves_state_unchanged_witness :
    (signup_for_activity "Chess Club" "michael@mergington.edu" dbChess).2 = dbChess ∧
    (unregister_from_activity "Robotics" "x@mergington.edu" dbChess).2 = dbChess :=
  ⟨(error_leaves_state_unchanged dbChess "Chess Club" "michael@mergington.edu").1
      400 "Student is already signed up" (by decide),
   (error_leaves_state_unchanged dbChess "Robotics" "x@mergington.edu").2
      404 "Activity not found" (by decide)⟩

/-- C8: the duplicate check is scoped per activity: an email already
enrolled in activity `a` still signs up successfully for a different
activity `b` it is not enrolled in, gaining an enrollment row for `b`. -/
theorem signup_scope_per_activity (db : DB) (activity_b email : String) (a b : Activity)
    (_ha : a ∈ db.activities)
    (_henrolled : ∃ e ∈ db.enrollments, e.activity_id = a.id ∧ e.email = email)
    (hfindb : findActivity db activity_b = some b)
    (hnotb : ∀ e ∈ db.enrollments, ¬(e.activity_id = b.id ∧ e.email = email)) :
    signup_for_activity activity_b email db =
      (.ok s!"Signed up {email} for {activity_b}",
        { db with
            enrollments := db.enrollments ++ [⟨db.nextEnrollmentId, b.id, email⟩],
            nextEnrollmentId := db.nextEnrollmentId + 1 }) := by
  have hfe : findEnrollment db b.id email = none := by
    rw [findEnrollment, List.find?_eq_none]
    intro x hx
    simpa using hnotb x hx
  simp [signup_for_activity, hfindb, hfe]

/-- Witness for C8: michael, enrolled in the Chess Club, joins the Art
Club as well. -/
theorem signup_scope_per_activity_witness :
    signup_for_activity "Art Club" "michael@mergington.edu" dbChess =
      (.ok "Signed up michael@mergington.edu for Art Club",
        { dbChess with
            enrollments := dbChess.enrollments ++ [⟨3, 2, "michael@mergington.edu"⟩],
            nextEnrollmentId := 4 }) :=
  signup_scope_per_activity dbChess "Art Club" "michael@mergington.edu"
    ⟨1, "Chess Club", "Learn strategies", "Fridays, 3:30 PM - 5:00 PM", 2⟩
    ⟨2, "Art Club", "Painting and drawing", "Thursdays, 3:30 PM - 5:00 PM", 2⟩
    (by decide) (by decide) (by decide) (by decide)

/-- C9: the seeding guard inspects only the activity table: any state with
an activity row is left entirely unwritten, so emptying the enrollment
table and re-running the seeding restores no participant. -/
theorem seed_guard_only_activities (db : DB) (h : db.activities ≠ []) :
    init_db_and_seed db = db ∧
    (init_db_and_seed { db with enrollments := [] }).enrollments = [] := by
  have h1 : init_db_and_seed db = db := by
    rw [init_db_and_seed, if_neg (by simpa using h)]
  have h2 : init_db_and_seed { db with enrollments := [] } =
      { db with enrollments := ([] : List Enrollment) } := by
    rw [init_db_and_seed, if_neg (by simpa using h)]
  exact ⟨h1, by rw [h2]⟩

/-- Witness for C9: empty the enrollments of the fully seeded store and
re-run the seeding: nobody is restored. -/
theorem seed_guard_only_activities_witness :
    (init_db_and_seed emptyDB).activities ≠ [] ∧
    (init_db_and_seed { init_db_and_seed emptyDB with enrollments := [] }).enrollments = [] :=
  ⟨by decide, (seed_guard_only_activities (init_db_and_seed emptyDB) (by decide)).2⟩

/-- C10: frame property: no API request writes the activity table — after
any sequence of list, sign-up and unregister requests, the activity rows
are exactly those before. -/
theorem activity_table_invariant (rs : List Request) (db : DB) :
    (rs.foldl applyRequest db).activities = db.activities := by
  induction rs generalizing db with
  | nil => rfl
  | cons r rs ih =>
    rw [List.foldl_cons, ih]
    cases r with
    | list => rfl
    | signup n e => exact signup_preserves_activities n e db
    | unregister n e => exact unregister_preserves_activities n e db

end App
